import Mathlib

/-!
Shallow embedding of the `robo-face-component` repository: the `RobotFace`
component (two near-identical variants in `src/src/Face.jsx`) and the demo
`App` caller (`src/unnamed/part_000`).

The expression state machine (`setExpression`, `cycleExpression`,
`getExpression`), the mouth animator (`mouthScale`, `renderMouth`), the
geometry catalog's mouth entries, and the idle-blink scheduler
(`scheduleBlink` and its timer discipline) are translated from the source.
Both variants of `Face.jsx` contain character-identical definitions of
`EXPRESSIONS`, `setExpression`, `cycleExpression`, `nextBlink` and
`mouthScale`; each is embedded once below (with a second copy where a claim
distinguishes the variants).

JavaScript numbers are modelled as rationals (all arithmetic here is exact:
no overflow, and the constants involved are small integers), strings as
`String`, `undefined`/absent props as `Option`.
-/

namespace RoboFace

/-- The fixed ordered expression list, `Face.jsx` line 36 / 330:
`["neutral", "happy", "surprised", "angry", "sad"]`. -/
def EXPRESSIONS : List String := ["neutral", "happy", "surprised", "angry", "sad"]

/-- The props of the component that the expression state machine observes:
`expression` (controlled; `none` models the prop being `undefined`) and
whether an `onExpressionChange` callback was supplied.  `initialExpression`,
`autoBlink` and `mouthValue` are carried for completeness. -/
structure FaceProps where
  initialExpression : String
  controlledExpression : Option String
  autoBlink : Bool
  hasOnExpressionChange : Bool
  mouthValue : ℚ

/-- The mutable expression state of one face instance
(the `internalExpression` `useState` hook). -/
structure FaceState where
  internalExpression : String

/-- `const isControlled = controlledExpression !== undefined;` (line 38 / 332). -/
def isControlled (p : FaceProps) : Bool := p.controlledExpression.isSome

/-- `const expression = isControlled ? controlledExpression : internalExpression;`
(line 41 / 335).  This is also what the imperative handle's `getExpression`
returns (line 75 / 384). -/
def expression (p : FaceProps) (s : FaceState) : String :=
  match p.controlledExpression with
  | some e => e
  | none => s.internalExpression

/-- `setExpression` (lines 63–71, and character-identical at 372–380):

```js
if (EXPRESSIONS.includes(newExpression)) {
  if (!isControlled) setInternalExpression(newExpression);
  if (onExpressionChange) onExpressionChange(newExpression);
}
```

Returns the updated state together with the list of arguments the
`onExpressionChange` callback was invoked with during the call. -/
def setExpression (p : FaceProps) (s : FaceState) (newExpression : String) :
    FaceState × List String :=
  if EXPRESSIONS.contains newExpression then
    ({ s with
        internalExpression :=
          if isControlled p then s.internalExpression else newExpression },
     if p.hasOnExpressionChange then [newExpression] else [])
  else
    (s, [])

/-- JavaScript `Array.prototype.indexOf`: the index of the first occurrence,
or `-1` when absent. -/
def jsIndexOf (l : List String) (x : String) : Int :=
  match l.indexOf? x with
  | some i => (i : Int)
  | none => -1

/-- `cycleExpression` (lines 94–99, and character-identical at 404–409):

```js
const currentIndex = EXPRESSIONS.indexOf(expression);
const nextIndex = (currentIndex + direction + EXPRESSIONS.length) % EXPRESSIONS.length;
setExpression(EXPRESSIONS[nextIndex]);
```

An out-of-range index read (`EXPRESSIONS[nextIndex]` with `nextIndex`
outside `0..4`) yields `undefined` in JavaScript, which `setExpression`
then ignores; this is modelled by the default string `"undefined"`, which is
not a member of `EXPRESSIONS`. -/
def cycleExpression (p : FaceProps) (s : FaceState) (direction : Int) :
    FaceState × List String :=
  let currentIndex := jsIndexOf EXPRESSIONS (expression p s)
  let nextIndex := (currentIndex + direction + (EXPRESSIONS.length : Int)) %
    (EXPRESSIONS.length : Int)
  setExpression p s (EXPRESSIONS.getD nextIndex.toNat "undefined")

/-- Iterated `cycleExpression`, discarding the callback log, for the cyclic
closure property. -/
def cycleIter (p : FaceProps) (s : FaceState) (direction : Int) : Nat → FaceState
  | 0 => s
  | n + 1 => cycleIter p (cycleExpression p s direction).1 direction n

/-! ## Mouth animator and geometry-catalog mouth entries -/

/-- The `mouth` field of a `expressionStyles` entry (lines 107–175 / 417–485). -/
structure MouthStyle where
  path : String
  stroke : String
  fill : String
  strokeWidth : ℚ

/-- The mouth entries of the geometry catalog `expressionStyles`
(lines 107–175 and identically 417–485), parameterized by the merged accent
color exactly as in the source (`mergedColors.accent`). -/
def mouthStyleOf (accent : String) : String → Option MouthStyle
  | "neutral" => some ⟨"M 40 78 H 60", accent, "none", 3⟩
  | "happy" => some ⟨"M 40 72 Q 50 82 60 72", accent, "none", 3⟩
  | "sad" => some ⟨"M 40 82 Q 50 72 60 82", accent, "none", 3⟩
  | "angry" => some ⟨"M 48 80 a 4 4 0 0 1 5 0 a 5 5 0 0 1 -5 0 Z", "none", accent, 0⟩
  | "surprised" => some ⟨"M 47 75 a 4 4 0 0 1 6 0 a 6 6 0 0 1 -6 0 Z", "none", accent, 0⟩
  | _ => none

/-- `const mouthScale = 1 + Math.max(0, Math.min(1, mouthValue / 100)) * 0.5;`
(line 211, and identically line 552). -/
def mouthScale (mouthValue : ℚ) : ℚ :=
  1 + max 0 (min 1 (mouthValue / 100)) * (1 / 2)

/-- `renderMouth` (lines 208–228): looks the expression's mouth up in the
catalog (`null` for an unknown expression), and renders its static `path`
inside a group scaled vertically by `mouthScale`.  Modelled as the rendered
path string together with the applied vertical scale factor. -/
def renderMouth (accent : String) (mouthValue : ℚ) (expr : String) :
    Option (String × ℚ) :=
  match mouthStyleOf accent expr with
  | none => none
  | some style => some (style.path, mouthScale mouthValue)

/-! ## Idle-blink scheduler -/

/-- `const nextBlink = Math.random() * 4000 + 2000;` — variant 1, line 83.
`r` stands for the value returned by `Math.random()`, drawn from `[0,1)`. -/
def nextBlinkV1 (r : ℚ) : ℚ := r * 4000 + 2000

/-- `const nextBlink = Math.random() * 4000 + 2000;` — variant 2, line 392,
character-identical to variant 1. -/
def nextBlinkV2 (r : ℚ) : ℚ := r * 4000 + 2000

/-- The configuration the auto-blink effect (lines 79–92 / 388–401)
closes over. -/
structure BlinkConfig where
  autoBlink : Bool
  prefersReducedMotion : Bool

/-- The timer-visible state of the auto-blink machinery: the `isBlinking`
flag, whether `blinkTimeoutRef` holds a pending idle-blink timeout, and
whether a blink-end timeout (the inner `setTimeout(..., 200)` /
`setTimeout(..., 150)`) is pending. -/
structure BlinkState where
  isBlinking : Bool
  idleTimerPending : Bool
  endTimerPending : Bool

/-- `scheduleBlink` (lines 80–89 / 389–398):

```js
if (!autoBlink || prefersReducedMotion) return;
clearTimeout(blinkTimeoutRef.current);
blinkTimeoutRef.current = setTimeout(..., nextBlink);
```

When the guard passes, the net effect on the timer state is that exactly one
idle-blink timeout is pending. -/
def scheduleBlink (c : BlinkConfig) (s : BlinkState) : BlinkState :=
  if !c.autoBlink || c.prefersReducedMotion then s
  else { s with idleTimerPending := true }

/-- One run of the auto-blink effect body after its predecessor's cleanup
(`return () => clearTimeout(blinkTimeoutRef.current);`, line 91 / 400):
the cleanup cancels any pending idle-blink timeout, then the new effect
calls `scheduleBlink()`. -/
def blinkEffectRun (c : BlinkConfig) (s : BlinkState) : BlinkState :=
  scheduleBlink c { s with idleTimerPending := false }

/-- The asynchronous events that can touch the blink state after the effect
has run: the idle-blink timeout firing (its callback sets `isBlinking` to
`true`, arms the blink-end timeout, and calls `scheduleBlink()` again,
lines 84–88 / 393–397), and the blink-end timeout firing
(`setIsBlinking(false)`, line 86 / 395). -/
inductive BlinkEvent
  | idleFire
  | endFire

/-- One event step of the blink machinery.  A timeout that is not pending
cannot fire (firing consumes the pending token). -/
def blinkStep (c : BlinkConfig) (s : BlinkState) : BlinkEvent → BlinkState
  | .idleFire =>
      if s.idleTimerPending then
        scheduleBlink c
          { s with isBlinking := true, endTimerPending := true, idleTimerPending := false }
      else s
  | .endFire =>
      if s.endTimerPending then
        { s with isBlinking := false, endTimerPending := false }
      else s

/-- Run a sequence of blink events. -/
def blinkRun (c : BlinkConfig) (s : BlinkState) : List BlinkEvent → BlinkState
  | [] => s
  | e :: es => blinkRun c (blinkStep c s e) es

/-! ## Gaze controller (driven mode) -/

/-- Modelled from the spec: no component under `src/` consumes the
`pupilX`/`pupilY` props (the demo `App` in `src/unnamed/part_000`
lines 41–48 supplies them to `RobotFace`, but neither `Face.jsx` variant
declares or reads them) — the Gaze Controller variant is missing from
`src/`.  Spec §4.3, driven mode: "when external x/y signals are supplied
(non-null), each is clamped to [-1,1] then scaled by D. Reduced-motion
forces offset to (0,0) regardless of input", with `D` the fixed maximum
displacement (e.g. 4 units in the 100×100 viewbox). -/
def drivenPupilOffset (D : ℚ) (reducedMotion : Bool) (x y : ℚ) : ℚ × ℚ :=
  if reducedMotion then (0, 0)
  else (max (-1) (min 1 x) * D, max (-1) (min 1 y) * D)

/-! ## Helper lemmas -/

/-- Dividing the `[0,100]` clamp by `100` is the `[0,1]` clamp of `v / 100`:
the two readings of the mouth-value normalization agree. -/
theorem clamp_hundred_div (v : ℚ) :
    max 0 (min 1 (v / 100)) = max 0 (min 100 v) / 100 := by
  rcases le_total v 0 with h | h
  · rw [min_eq_right (by linarith : v ≤ 100), max_eq_left h,
      min_eq_right (by linarith : v / 100 ≤ 1), max_eq_left (by linarith : v / 100 ≤ 0)]
    norm_num
  · rcases le_total v 100 with h2 | h2
    · rw [min_eq_right h2, max_eq_right h,
        min_eq_right (by linarith : v / 100 ≤ 1), max_eq_right (by positivity)]
    · rw [min_eq_left h2, max_eq_right (by norm_num : (0 : ℚ) ≤ 100),
        min_eq_left (by linarith : (1 : ℚ) ≤ v / 100), max_eq_right (by norm_num : (0 : ℚ) ≤ 1)]
      norm_num

/-- Invariant of the blink event loop: once no idle-blink timeout is pending,
no sequence of timer firings can arm one or raise the `isBlinking` flag
(the blink-end timeout can only lower it). -/
theorem blinkRun_no_pending_invariant (c : BlinkConfig) (evs : List BlinkEvent) :
    ∀ s : BlinkState, s.idleTimerPending = false →
      (blinkRun c s evs).idleTimerPending = false ∧
        ((blinkRun c s evs).isBlinking = true → s.isBlinking = true) := by
  induction evs with
  | nil => intro s hp; exact ⟨hp, fun h => h⟩
  | cons e es ih =>
    intro s hp
    cases e with
    | idleFire =>
      have hstep : blinkStep c s .idleFire = s := by simp [blinkStep, hp]
      rw [blinkRun, hstep]
      exact ih s hp
    | endFire =>
      by_cases he : s.endTimerPending = true
      · have hstep : blinkStep c s .endFire =
            { s with isBlinking := false, endTimerPending := false } := by
          simp [blinkStep, he]
        rw [blinkRun, hstep]
        obtain ⟨h1, h2⟩ :=
          ih { s with isBlinking := false, endTimerPending := false } hp
        exact ⟨h1, fun h => absurd (h2 h) (by simp)⟩
      · have hstep : blinkStep c s .endFire = s := by
          simp [blinkStep] at he ⊢
          simp [he]
        rw [blinkRun, hstep]
        exact ih s hp

/-! ## Claims -/

/-- C1: for every string not in the fixed expression set, `setExpression`
leaves the state unchanged, invokes no callback, and the observable
expression is unchanged — for every props configuration, so in both the
controlled and uncontrolled variants. -/
theorem setExpression_invalid_is_noop (p : FaceProps) (s : FaceState)
    (bad : String) (hbad : bad ∉ EXPRESSIONS) :
    setExpression p s bad = (s, []) ∧
      expression p (setExpression p s bad).1 = expression p s := by
  simp [setExpression, hbad]

/-- Witness for C1 at the invalid expression `"confused"` in an uncontrolled
configuration. -/
theorem setExpression_invalid_is_noop_witness :
    "confused" ∉ EXPRESSIONS ∧
      (setExpression ⟨"neutral", none, true, true, 0⟩ ⟨"happy"⟩ "confused" =
          (⟨"happy"⟩, []) ∧
        expression ⟨"neutral", none, true, true, 0⟩
            (setExpression ⟨"neutral", none, true, true, 0⟩ ⟨"happy"⟩ "confused").1 =
          expression ⟨"neutral", none, true, true, 0⟩ ⟨"happy"⟩) :=
  ⟨by decide, setExpression_invalid_is_noop _ _ _ (by decide)⟩

/-- C2: for every valid expression `e`, in uncontrolled mode (no controlled
`expression` prop), `setExpression e` followed by `getExpression` returns
`e`. -/
theorem setExpression_then_getExpression (p : FaceProps) (s : FaceState)
    (e : String) (hc : p.controlledExpression = none) (he : e ∈ EXPRESSIONS) :
    expression p (setExpression p s e).1 = e := by
  simp [setExpression, expression, isControlled, he, hc]

/-- Witness for C2 at `e = "angry"` from state `"neutral"`. -/
theorem setExpression_then_getExpression_witness :
    (⟨"neutral", none, true, true, 0⟩ : FaceProps).controlledExpression = none ∧
      "angry" ∈ EXPRESSIONS ∧
      expression ⟨"neutral", none, true, true, 0⟩
          (setExpression ⟨"neutral", none, true, true, 0⟩ ⟨"neutral"⟩ "angry").1 =
        "angry" :=
  ⟨rfl, by decide, setExpression_then_getExpression _ _ _ rfl (by decide)⟩

/-- C3: for every driven gaze input the pupil offset magnitude is at most the
maximum displacement `D` on either axis, and the out-of-range input
`pupilX = 2` produces offset `x` exactly `D` (clamped then scaled), not
`2 × D`.  (Gaze controller modelled from the spec; see
`drivenPupilOffset`.) -/
theorem drivenPupilOffset_clamped (D : ℚ) (hD : 0 ≤ D) (red : Bool) (x y : ℚ) :
    |(drivenPupilOffset D red x y).1| ≤ D ∧
      |(drivenPupilOffset D red x y).2| ≤ D ∧
      (drivenPupilOffset D false 2 y).1 = D := by
  have key : ∀ z : ℚ, |max (-1) (min 1 z) * D| ≤ D := by
    intro z
    have h1 : max (-1) (min 1 z) ≤ 1 := max_le (by norm_num) (min_le_left _ _)
    have h2 : (-1 : ℚ) ≤ max (-1) (min 1 z) := le_max_left _ _
    rw [abs_mul, abs_of_nonneg hD]
    have h3 : |max (-1) (min 1 z)| ≤ 1 := abs_le.mpr ⟨h2, h1⟩
    nlinarith
  refine ⟨?_, ?_, ?_⟩
  · cases red <;> simp [drivenPupilOffset, hD, key]
  · cases red <;> simp [drivenPupilOffset, hD, key]
  · simp [drivenPupilOffset]

/-- Witness for C3 at `D = 4` (the spec's example displacement),
`pupilX = 2`, `pupilY = 0`. -/
theorem drivenPupilOffset_clamped_witness :
    (0 : ℚ) ≤ 4 ∧
      (|(drivenPupilOffset 4 false 2 0).1| ≤ 4 ∧
        |(drivenPupilOffset 4 false 2 0).2| ≤ 4 ∧
        (drivenPupilOffset 4 false 2 0).1 = 4) :=
  ⟨by norm_num, drivenPupilOffset_clamped 4 (by norm_num) false 2 0⟩

/-- C4: in uncontrolled mode, from every starting expression in the fixed
set, applying `cycleExpression (+1)` five times returns to the starting
expression: cyclic closure over the `N = 5` ordered list. -/
theorem cycle_plus_one_five_times_closes (p : FaceProps) (e : String)
    (hc : p.controlledExpression = none) (he : e ∈ EXPRESSIONS) :
    cycleIter p ⟨e⟩ 1 5 = ⟨e⟩ := by
  rcases p with ⟨i, c, a, b, m⟩
  obtain rfl : c = none := hc
  have s1 : (cycleExpression ⟨i, none, a, b, m⟩ ⟨"neutral"⟩ 1).1 = ⟨"happy"⟩ := rfl
  have s2 : (cycleExpression ⟨i, none, a, b, m⟩ ⟨"happy"⟩ 1).1 = ⟨"surprised"⟩ := rfl
  have s3 : (cycleExpression ⟨i, none, a, b, m⟩ ⟨"surprised"⟩ 1).1 = ⟨"angry"⟩ := rfl
  have s4 : (cycleExpression ⟨i, none, a, b, m⟩ ⟨"angry"⟩ 1).1 = ⟨"sad"⟩ := rfl
  have s5 : (cycleExpression ⟨i, none, a, b, m⟩ ⟨"sad"⟩ 1).1 = ⟨"neutral"⟩ := rfl
  fin_cases he <;> simp only [cycleIter, s1, s2, s3, s4, s5]

/-- Witness for C4 starting from `"happy"`. -/
theorem cycle_plus_one_five_times_closes_witness :
    (⟨"neutral", none, true, true, 0⟩ : FaceProps).controlledExpression = none ∧
      "happy" ∈ EXPRESSIONS ∧
      cycleIter ⟨"neutral", none, true, true, 0⟩ ⟨"happy"⟩ 1 5 = ⟨"happy"⟩ :=
  ⟨rfl, by decide, cycle_plus_one_five_times_closes _ _ rfl (by decide)⟩

/-- C5: in uncontrolled mode with a change callback supplied,
`cycleExpression (-1)` from `"neutral"` (index 0) lands on `"sad"`
(index 4 = N − 1) and invokes the callback with `"sad"`. -/
theorem cycle_minus_one_from_neutral (p : FaceProps) (s : FaceState)
    (hc : p.controlledExpression = none) (hcb : p.hasOnExpressionChange = true)
    (hs : s.internalExpression = "neutral") :
    cycleExpression p s (-1) = (⟨"sad"⟩, ["sad"]) := by
  rcases p with ⟨i, c, a, b, m⟩
  rcases s with ⟨e⟩
  obtain rfl : c = none := hc
  obtain rfl : b = true := hcb
  obtain rfl : e = "neutral" := hs
  rfl

/-- Witness for C5 at a concrete uncontrolled configuration. -/
theorem cycle_minus_one_from_neutral_witness :
    (⟨"neutral", none, true, true, 0⟩ : FaceProps).controlledExpression = none ∧
      (⟨"neutral", none, true, true, 0⟩ : FaceProps).hasOnExpressionChange = true ∧
      (⟨"neutral"⟩ : FaceState).internalExpression = "neutral" ∧
      cycleExpression ⟨"neutral", none, true, true, 0⟩ ⟨"neutral"⟩ (-1) =
        (⟨"sad"⟩, ["sad"]) :=
  ⟨rfl, rfl, rfl, cycle_minus_one_from_neutral _ _ rfl rfl rfl⟩

/-- C6: the mouth vertical scale is `1 + (clamp(v,0,100)/100) · (1/2)` for
every mouth value `v`; at `v = 0` on `"neutral"` the rendered mouth is the
static catalog path with scale exactly `1`; at `v = 100` the scale reaches
its maximum `3/2`, a bound no input exceeds; out-of-range values are
clamped, never rejected. -/
theorem mouthScale_formula_and_endpoints (accent : String) (v : ℚ) :
    mouthScale v = 1 + (max 0 (min 100 v) / 100) * (1 / 2) ∧
      renderMouth accent 0 "neutral" = some ("M 40 78 H 60", 1) ∧
      mouthScale 100 = 3 / 2 ∧
      mouthScale v ≤ 3 / 2 ∧
      mouthScale v = mouthScale (max 0 (min 100 v)) := by
  have hb : max 0 (min 1 (v / 100)) ≤ 1 := max_le (by norm_num) (min_le_left _ _)
  have idem : max 0 (min 100 (max 0 (min 100 v))) = max 0 (min 100 v) := by
    rw [min_eq_right (max_le (by norm_num) (min_le_left _ _)),
      max_eq_right (le_max_left _ _)]
  refine ⟨by unfold mouthScale; rw [clamp_hundred_div],
    by norm_num [renderMouth, mouthStyleOf, mouthScale],
    by norm_num [mouthScale],
    by unfold mouthScale; linarith, ?_⟩
  unfold mouthScale
  rw [clamp_hundred_div, clamp_hundred_div, idem]

/-- C7: the mouth scale is monotonically non-decreasing in the mouth
value. -/
theorem mouthScale_monotone (v1 v2 : ℚ) (h : v1 ≤ v2) :
    mouthScale v1 ≤ mouthScale v2 := by
  unfold mouthScale
  have hd : v1 / 100 ≤ v2 / 100 := by linarith
  have hmin : min 1 (v1 / 100) ≤ min 1 (v2 / 100) := min_le_min le_rfl hd
  have hmax : max 0 (min 1 (v1 / 100)) ≤ max 0 (min 1 (v2 / 100)) :=
    max_le_max le_rfl hmin
  linarith

/-- Witness for C7 at `v1 = 10 ≤ v2 = 20`. -/
theorem mouthScale_monotone_witness :
    (10 : ℚ) ≤ 20 ∧ mouthScale 10 ≤ mouthScale 20 :=
  ⟨by norm_num, mouthScale_monotone 10 20 (by norm_num)⟩

/-- C8: when auto-blink is disabled or reduced motion is requested, the
effect run cancels any pending idle-blink timeout and arms no new one, and
from then on no sequence of timer events can set `isBlinking` to `true`
(it can only have been `true` already at disable time) or leave an
idle-blink timeout pending. -/
theorem blink_disabled_never_sets_flag (c : BlinkConfig) (s : BlinkState)
    (hc : c.autoBlink = false ∨ c.prefersReducedMotion = true)
    (evs : List BlinkEvent) :
    (blinkEffectRun c s).idleTimerPending = false ∧
      (blinkRun c (blinkEffectRun c s) evs).idleTimerPending = false ∧
      ((blinkRun c (blinkEffectRun c s) evs).isBlinking = true →
        s.isBlinking = true) := by
  have heff : (blinkEffectRun c s).idleTimerPending = false ∧
      (blinkEffectRun c s).isBlinking = s.isBlinking := by
    rcases hc with h | h <;> simp [blinkEffectRun, scheduleBlink, h]
  obtain ⟨h1, h2⟩ := blinkRun_no_pending_invariant c evs _ heff.1
  exact ⟨heff.1, h1, fun h => heff.2 ▸ h2 h⟩

/-- Witness for C8: auto-blink disabled, starting with a pending idle
timeout, over a two-event interval. -/
theorem blink_disabled_never_sets_flag_witness :
    ((⟨false, false⟩ : BlinkConfig).autoBlink = false ∨
        (⟨false, false⟩ : BlinkConfig).prefersReducedMotion = true) ∧
      ((blinkEffectRun ⟨false, false⟩ ⟨false, true, false⟩).idleTimerPending = false ∧
        (blinkRun ⟨false, false⟩ (blinkEffectRun ⟨false, false⟩ ⟨false, true, false⟩)
            [.idleFire, .endFire]).idleTimerPending = false ∧
        ((blinkRun ⟨false, false⟩ (blinkEffectRun ⟨false, false⟩ ⟨false, true, false⟩)
              [.idleFire, .endFire]).isBlinking = true →
          (⟨false, true, false⟩ : BlinkState).isBlinking = true)) :=
  ⟨Or.inl rfl,
    blink_disabled_never_sets_flag ⟨false, false⟩ ⟨false, true, false⟩ (Or.inl rfl)
      [.idleFire, .endFire]⟩

/-- C9 counterexample: the claim says the idle-blink delay is drawn
uniformly from 1000–6000 ms in one variant and 2000–6000 ms in the other.
In fact the two variants' delay functions are character-identical
(`Math.random() * 4000 + 2000`, lines 83 and 392): at random-source value
`0`, where a uniform draw from `[1000, 6000)` would yield `1000`, both
variants yield `2000` — no variant under `src/` has the 1000–6000 range. -/
theorem nextBlink_no_thousand_variant :
    nextBlinkV1 = nextBlinkV2 ∧
      nextBlinkV1 0 = 2000 ∧ nextBlinkV2 0 = 2000 ∧ nextBlinkV1 0 ≠ 1000 :=
  ⟨rfl, by norm_num [nextBlinkV1], by norm_num [nextBlinkV2], by norm_num [nextBlinkV1]⟩

/-- C9 (amended): both variants compute the idle-blink delay as
`random · 4000 + 2000`, so for every random-source value `r ∈ [0, 1)` the
scheduled delay lies in `[2000, 6000)` in both variants. -/
theorem nextBlink_range (r : ℚ) (h0 : 0 ≤ r) (h1 : r < 1) :
    2000 ≤ nextBlinkV1 r ∧ nextBlinkV1 r < 6000 ∧ nextBlinkV2 r = nextBlinkV1 r := by
  unfold nextBlinkV1 nextBlinkV2
  exact ⟨by linarith, by linarith, rfl⟩

/-- Witness for the amended C9 at `r = 1/2`. -/
theorem nextBlink_range_witness :
    (0 : ℚ) ≤ 1 / 2 ∧ (1 / 2 : ℚ) < 1 ∧
      (2000 ≤ nextBlinkV1 (1 / 2) ∧ nextBlinkV1 (1 / 2) < 6000 ∧
        nextBlinkV2 (1 / 2) = nextBlinkV1 (1 / 2)) :=
  ⟨by norm_num, by norm_num, nextBlink_range (1 / 2) (by norm_num) (by norm_num)⟩

/-- C10: for every valid expression `e`, `setExpression e` invokes the
change callback with `e` whenever a callback is supplied — even when `e`
equals the current expression, as there is no change-detection guard — and
in controlled mode the displayed expression stays equal to the controlled
prop. -/
theorem setExpression_notifies_without_guard (p : FaceProps) (s : FaceState)
    (e : String) (he : e ∈ EXPRESSIONS) (hcb : p.hasOnExpressionChange = true) :
    (setExpression p s e).2 = [e] ∧
      (∀ c, p.controlledExpression = some c →
        expression p (setExpression p s e).1 = c) := by
  constructor
  · simp [setExpression, he, hcb]
  · intro c hc
    simp [setExpression, expression, isControlled, he, hc]

/-- Witness for C10: controlled on `"neutral"`, requesting `"neutral"`
itself — the callback still fires with `"neutral"` and the displayed
expression stays `"neutral"`. -/
theorem setExpression_notifies_without_guard_witness :
    "neutral" ∈ EXPRESSIONS ∧
      (⟨"neutral", some "neutral", true, true, 0⟩ : FaceProps).hasOnExpressionChange = true ∧
      (setExpression ⟨"neutral", some "neutral", true, true, 0⟩ ⟨"neutral"⟩ "neutral").2 =
        ["neutral"] ∧
      expression ⟨"neutral", some "neutral", true, true, 0⟩
          (setExpression ⟨"neutral", some "neutral", true, true, 0⟩ ⟨"neutral"⟩ "neutral").1 =
        "neutral" :=
  ⟨by decide, rfl,
    (setExpression_notifies_without_guard _ _ _ (by decide) rfl).1,
    (setExpression_notifies_without_guard _ _ _ (by decide) rfl).2 "neutral" rfl⟩

end RoboFace
